import Mathlib

/-!
Verification of the bookmark persistence and migration component of the
`workflowy-local-mcp` desktop backend (`src/src-tauri/src/lib.rs`).

The Rust source drives a SQLite database file, the local filesystem and one
HTTP endpoint.  Each external effect is embedded as explicit state passing:

* `DbState` models the on-disk database: whether the file exists, whether the
  underlying storage is corrupted/locked (every engine call on such a
  connection fails), and the `bookmarks` table (possibly absent) with its
  column list and rows.  The base columns `name`, `node_id`, `created_at` are
  assumed present whenever the table exists — the table is created by an
  external collaborator with that schema — while presence of the migrated
  `context` column is tracked explicitly in `columns`.
* `FsState` models the filesystem as a finite map from paths to file
  contents; directories never fail to be created in the model.
* The HTTP layer is a function from the request actually sent to the
  response received (a mock server).
-/

deriving instance DecidableEq for Except

namespace WorkflowyLocal

/-- A bookmark record (struct `Bookmark` in the source), also used as the
shape of a stored row of the `bookmarks` table.  The `context` field of a
stored row is observable only once the `context` column exists. -/
structure Bookmark where
  name : String
  node_id : String
  context : Option String
  created_at : Option String
deriving DecidableEq

/-- The `bookmarks` table: its live column list and its rows. -/
structure BookmarksTable where
  columns : List String
  rows : List Bookmark
deriving DecidableEq

/-- The state of the backing database file `<app_data_dir>/bookmarks.db`. -/
structure DbState where
  fileExists : Bool
  corrupted : Bool
  table : Option BookmarksTable
deriving DecidableEq

/-! ### SQLite engine primitives

Each primitive is one statement executed against an open connection.
A corrupted/locked store makes every statement fail; a missing `bookmarks`
table makes every statement that references it fail, except
`PRAGMA table_info`, which SQLite answers with an empty column list. -/

/-- Statement `PRAGMA table_info(bookmarks)`: the current column list.  On a missing
table SQLite returns zero rows (success); on corrupted storage it fails. -/
def pragmaTableInfo (db : DbState) : Except String (List String) :=
  if db.corrupted then .error "database disk image is malformed"
  else
    match db.table with
    | none => .ok []
    | some t => .ok t.columns

/-- Statement `ALTER TABLE bookmarks ADD COLUMN context TEXT`: appends the column;
existing rows read back NULL in the new column. -/
def execAlterAddContext (db : DbState) : Except String DbState :=
  if db.corrupted then .error "database disk image is malformed"
  else
    match db.table with
    | none => .error "no such table: bookmarks"
    | some t =>
        .ok { db with
                table := some { columns := t.columns ++ ["context"],
                                rows := t.rows.map fun r => { r with context := none } } }

/-- Statement `DELETE FROM bookmarks WHERE name = ?`: removes exactly the rows whose
`name` equals the argument; matching nothing is still success. -/
def execDelete (db : DbState) (name : String) : Except String DbState :=
  if db.corrupted then .error "database disk image is malformed"
  else
    match db.table with
    | none => .error "no such table: bookmarks"
    | some t =>
        .ok { db with table := some { t with rows := t.rows.filter fun r => r.name != name } }

/-- Statement `UPDATE bookmarks SET context = ? WHERE name = ?`: fails if the `context`
column does not exist; otherwise rewrites the `context` field of every row
whose `name` matches, leaving all other fields and rows untouched. -/
def execUpdateContext (db : DbState) (name : String) (context : Option String) :
    Except String DbState :=
  if db.corrupted then .error "database disk image is malformed"
  else
    match db.table with
    | none => .error "no such table: bookmarks"
    | some t =>
        if "context" ∈ t.columns then
          .ok { db with
                  table := some { t with
                    rows := t.rows.map fun r =>
                      if r.name = name then { r with context := context } else r } }
        else .error "no such column: context"

/-- Ordering used by `SELECT ... ORDER BY name` (ascending lexicographic). -/
def bookmarkLe (a b : Bookmark) : Prop := a.name ≤ b.name

instance : DecidableRel bookmarkLe := fun a b => inferInstanceAs (Decidable (a.name ≤ b.name))

instance : IsTotal Bookmark bookmarkLe := ⟨fun a b => le_total a.name b.name⟩

instance : IsTrans Bookmark bookmarkLe := ⟨fun _ _ _ h h2 => le_trans h h2⟩

/-- Clause `ORDER BY name`: sort rows ascending by `name`. -/
def orderByName (rows : List Bookmark) : List Bookmark :=
  List.insertionSort bookmarkLe rows

/-- Statement `SELECT name, node_id, context, created_at FROM bookmarks ORDER BY name`:
fails if the table or the `context` column is missing; every row of the model
decodes, so none is dropped. -/
def selectBookmarks (db : DbState) : Except String (List Bookmark) :=
  if db.corrupted then .error "database disk image is malformed"
  else
    match db.table with
    | none => .error "no such table: bookmarks"
    | some t =>
        if "context" ∈ t.columns then .ok (orderByName t.rows)
        else .error "no such column: context"

/-! ### The exposed operations (`#[tauri::command]` functions) -/

/-- Function `run_migrations`: introspect the column list; add the `context` column if
absent.  Either engine failure is wrapped and surfaced to the caller. -/
def run_migrations (db : DbState) : Except String DbState :=
  match pragmaTableInfo db with
  | .error e => .error ("Failed to get table info: " ++ e)
  | .ok columns =>
      if "context" ∈ columns then .ok db
      else
        match execAlterAddContext db with
        | .error e => .error ("Failed to add context column: " ++ e)
        | .ok db1 => .ok db1

/-- Command `get_bookmarks`: empty list when the database file does not exist;
otherwise open, migrate, then select all rows ordered by name. -/
def get_bookmarks (db : DbState) : Except String (List Bookmark) :=
  if db.fileExists = false then .ok []
  else
    match run_migrations db with
    | .error e => .error e
    | .ok db1 =>
        match selectBookmarks db1 with
        | .error e => .error ("Failed to prepare query: " ++ e)
        | .ok bs => .ok bs

/-- Command `delete_bookmark`: "Database not found" when the file is missing;
otherwise run the DELETE and return the new store state. -/
def delete_bookmark (db : DbState) (name : String) : Except String DbState :=
  if db.fileExists = false then .error "Database not found"
  else
    match execDelete db name with
    | .error e => .error ("Failed to delete bookmark: " ++ e)
    | .ok db1 => .ok db1

/-- Command `update_bookmark_context`: "Database not found" when the file is missing;
otherwise run the UPDATE (no migration first) and return the new store
state. -/
def update_bookmark_context (db : DbState) (name : String) (context : Option String) :
    Except String DbState :=
  if db.fileExists = false then .error "Database not found"
  else
    match execUpdateContext db name context with
    | .error e => .error ("Failed to update bookmark: " ++ e)
    | .ok db1 => .ok db1

/-- Whether a fallible call failed. -/
def isError {ε α : Type} : Except ε α → Bool
  | .error _ => true
  | .ok _ => false

/-! ### Credential validator -/

/-- A mocked HTTP response: the status code and the body text (`none` when
the body cannot be read). -/
structure HttpResponse where
  status : Nat
  body : Option String
deriving DecidableEq

/-- The GET request `validate_api_key` issues. -/
structure HttpRequest where
  url : String
  authorization : String
  contentType : String
deriving DecidableEq

/-- Rust's `str::trim`: drop whitespace characters from both ends of the
string (`Char.isWhitespace` standing in for Unicode `White_Space`). -/
def rustTrim (s : String) : String :=
  ⟨((s.data.dropWhile Char.isWhitespace).reverse.dropWhile Char.isWhitespace).reverse⟩

/-- The request built by `validate_api_key`: fixed endpoint, bearer header
with the key trimmed of surrounding whitespace, JSON content type. -/
def validate_request (api_key : String) : HttpRequest :=
  { url := "https://workflowy.com/api/v1/targets",
    authorization := "Bearer " ++ rustTrim api_key,
    contentType := "application/json" }

/-- Predicate `reqwest::StatusCode::is_success`: 2xx. -/
def statusIsSuccess (s : Nat) : Bool := decide (200 ≤ s ∧ s < 300)

/-- Command `validate_api_key` against a mock server mapping the sent request to a
response.  2xx yields `true`; otherwise the error message carries the status
code and the body (empty string when unreadable).  The status is rendered by
its numeric code (reqwest's display appends a reason phrase, irrelevant
here); network-level failure is out of scope of the mock. -/
def validate_api_key (api_key : String) (server : HttpRequest → HttpResponse) :
    Except String Bool :=
  let resp := server (validate_request api_key)
  if statusIsSuccess resp.status then .ok true
  else .error ("API error (" ++ toString resp.status ++ "): " ++ (resp.body.getD ""))

/-! ### Server provisioner -/

/-- The filesystem: a finite association of paths to file contents. -/
structure FsState where
  files : List (String × String)
deriving DecidableEq

def pathExists (fs : FsState) (p : String) : Bool :=
  fs.files.any fun f => f.1 == p

def readFile (fs : FsState) (p : String) : Option String :=
  (fs.files.find? fun f => f.1 == p).map fun f => f.2

def writeFile (fs : FsState) (p : String) (content : String) : FsState :=
  { files := (p, content) :: fs.files.filter fun f => f.1 != p }

def joinPath (a b : String) : String := a ++ "/" ++ b

/-- The two host-environment directories, each possibly unresolvable. -/
structure AppEnv where
  app_data_dir : Except String String
  resource_dir : Except String String
deriving DecidableEq

/-- Bundled location of the helper script: `<resource_dir>/_up_/dist-mcp/server.cjs`. -/
def serverSourcePath (resource : String) : String :=
  joinPath (joinPath (joinPath resource "_up_") "dist-mcp") "server.cjs"

/-- Function `copy_mcp_server`: resolve the two directories, copy the bundled script
over `<app_data_dir>/server.cjs` when it exists, and return the destination
path either way.  Directory creation and the copy itself never fail in the
model. -/
def copy_mcp_server (env : AppEnv) (fs : FsState) : Except String (FsState × String) :=
  match env.app_data_dir with
  | .error e => .error ("Failed to get app data dir: " ++ e)
  | .ok app_data =>
      match env.resource_dir with
      | .error e => .error ("Failed to get resource dir: " ++ e)
      | .ok resource_path =>
          let source := serverSourcePath resource_path
          let dest := joinPath app_data "server.cjs"
          if pathExists fs source then
            .ok (writeFile fs dest ((readFile fs source).getD ""), dest)
          else .ok (fs, dest)

/-- Command `get_server_path`: pure derivation of the destination path. -/
def get_server_path (env : AppEnv) : Except String String :=
  match env.app_data_dir with
  | .error e => .error ("Failed to get app data dir: " ++ e)
  | .ok app_data => .ok (joinPath app_data "server.cjs")

/-- The `.setup` closure of `run`: provisioning failure is only logged; the
closure always returns success, so startup proceeds either way. -/
def setup_step (env : AppEnv) (fs : FsState) : FsState × Except String Unit :=
  match copy_mcp_server env fs with
  | .ok (fs1, _) => (fs1, .ok ())
  | .error _ => (fs, .ok ())

/-! ### Helper lemmas -/

/-- When the `context` column is already present, migration changes nothing. -/
theorem run_migrations_no_op (db : DbState) (t : BookmarksTable)
    (hc : db.corrupted = false) (ht : db.table = some t)
    (hcol : "context" ∈ t.columns) :
    run_migrations db = .ok db := by
  simp [run_migrations, pragmaTableInfo, hc, ht, hcol]

/-- When the `context` column is absent but the table exists, migration
appends the column and nulls it on every existing row. -/
theorem run_migrations_adds (db : DbState) (t : BookmarksTable)
    (hc : db.corrupted = false) (ht : db.table = some t)
    (hcol : "context" ∉ t.columns) :
    run_migrations db =
      .ok { db with
              table := some { columns := t.columns ++ ["context"],
                              rows := t.rows.map fun r => { r with context := none } } } := by
  simp [run_migrations, pragmaTableInfo, execAlterAddContext, hc, ht, hcol]

/-- A healthy store with a `bookmarks` table always lists successfully:
migration (a no-op or the column addition) followed by the ordered select. -/
theorem get_bookmarks_ok (db : DbState) (t : BookmarksTable)
    (hf : db.fileExists = true) (hc : db.corrupted = false) (ht : db.table = some t) :
    get_bookmarks db =
      .ok (orderByName
            (if "context" ∈ t.columns then t.rows
             else t.rows.map fun r => { r with context := none })) := by
  by_cases hcol : "context" ∈ t.columns
  · rw [get_bookmarks]
    rw [run_migrations_no_op db t hc ht hcol]
    simp [selectBookmarks, hf, hc, ht, hcol]
  · rw [get_bookmarks]
    rw [run_migrations_adds db t hc ht hcol]
    simp [selectBookmarks, hf, hc, ht, hcol]

/-- Membership is preserved by the `ORDER BY name` sort. -/
theorem mem_orderByName {b : Bookmark} {l : List Bookmark} :
    b ∈ orderByName l ↔ b ∈ l := by
  rw [orderByName]
  exact List.mem_insertionSort bookmarkLe

/-- A healthy store whose table already has the `context` column lists its
rows sorted by name. -/
theorem get_bookmarks_ok_present (db : DbState) (t : BookmarksTable)
    (hf : db.fileExists = true) (hc : db.corrupted = false) (ht : db.table = some t)
    (hcol : "context" ∈ t.columns) :
    get_bookmarks db = .ok (orderByName t.rows) := by
  rw [get_bookmarks_ok db t hf hc ht, if_pos hcol]

/-! ### Claim theorems -/

/-- C1: for every bookmark store whose `bookmarks` table holds N rows with
pairwise distinct names, `get_bookmarks` returns exactly N records, sorted
ascending lexicographically by `name`. -/
theorem C1_get_bookmarks_sorted_count (db : DbState) (t : BookmarksTable)
    (hf : db.fileExists = true) (hc : db.corrupted = false) (ht : db.table = some t)
    (_hnd : (t.rows.map Bookmark.name).Nodup) :
    ∃ bs, get_bookmarks db = .ok bs ∧ bs.length = t.rows.length ∧
      List.Sorted bookmarkLe bs := by
  refine ⟨_, get_bookmarks_ok db t hf hc ht, ?_, List.sorted_insertionSort bookmarkLe _⟩
  by_cases hcol : "context" ∈ t.columns <;>
    simp [orderByName, List.length_insertionSort, hcol]

/-- C1 witness: a concrete two-row store (names out of order, distinct). -/
theorem C1_witness :
    ((([⟨"b", "2", none, none⟩, ⟨"a", "1", some "ctx", some "t"⟩] :
        List Bookmark).map Bookmark.name).Nodup) ∧
    ∃ bs,
      get_bookmarks
          ⟨true, false,
            some ⟨["name", "node_id", "created_at"],
                  [⟨"b", "2", none, none⟩, ⟨"a", "1", some "ctx", some "t"⟩]⟩⟩ = .ok bs ∧
      bs.length =
        ([⟨"b", "2", none, none⟩, ⟨"a", "1", some "ctx", some "t"⟩] : List Bookmark).length ∧
      List.Sorted bookmarkLe bs :=
  ⟨by decide,
   C1_get_bookmarks_sorted_count
     ⟨true, false,
       some ⟨["name", "node_id", "created_at"],
             [⟨"b", "2", none, none⟩, ⟨"a", "1", some "ctx", some "t"⟩]⟩⟩
     ⟨["name", "node_id", "created_at"],
      [⟨"b", "2", none, none⟩, ⟨"a", "1", some "ctx", some "t"⟩]⟩
     rfl rfl rfl (by decide)⟩

/-- C2: when the backing database file does not exist, `get_bookmarks`
returns the empty list successfully, never an error. -/
theorem C2_get_bookmarks_missing_file (db : DbState) (h : db.fileExists = false) :
    get_bookmarks db = .ok [] := by
  simp [get_bookmarks, h]

/-- C2 witness: the file is absent, and listing yields the empty list. -/
theorem C2_witness :
    (⟨false, false, none⟩ : DbState).fileExists = false ∧
    get_bookmarks ⟨false, false, none⟩ = .ok [] :=
  ⟨rfl, C2_get_bookmarks_missing_file ⟨false, false, none⟩ rfl⟩

/-- C5: on a healthy connection to a store with a `bookmarks` table, running
the migrator twice succeeds, and the second run returns its input state
unchanged — so the column set after the second call equals the column set
after the first. -/
theorem C5_run_migrations_idempotent (db : DbState) (t : BookmarksTable)
    (hc : db.corrupted = false) (ht : db.table = some t) :
    ∃ db1, run_migrations db = .ok db1 ∧ run_migrations db1 = .ok db1 := by
  by_cases hcol : "context" ∈ t.columns
  · exact ⟨db, run_migrations_no_op db t hc ht hcol,
            run_migrations_no_op db t hc ht hcol⟩
  · refine ⟨_, run_migrations_adds db t hc ht hcol, ?_⟩
    exact run_migrations_no_op _
      ⟨t.columns ++ ["context"], t.rows.map fun r => { r with context := none }⟩
      hc rfl (by simp)

/-- C5 witness: a store still lacking the `context` column. -/
theorem C5_witness :
    (⟨true, false, some ⟨["name", "node_id"], [⟨"a", "1", none, none⟩]⟩⟩ :
        DbState).corrupted = false ∧
    ∃ db1,
      run_migrations ⟨true, false, some ⟨["name", "node_id"], [⟨"a", "1", none, none⟩]⟩⟩ =
        .ok db1 ∧
      run_migrations db1 = .ok db1 :=
  ⟨rfl,
   C5_run_migrations_idempotent
     ⟨true, false, some ⟨["name", "node_id"], [⟨"a", "1", none, none⟩]⟩⟩
     ⟨["name", "node_id"], [⟨"a", "1", none, none⟩]⟩ rfl rfl⟩

/-- C6: whenever the column-list introspection fails, or the column is
absent and the ALTER TABLE statement fails (e.g. the `bookmarks` table is
missing entirely), `run_migrations` surfaces an error to its caller. -/
theorem C6_run_migrations_propagates_failures (db : DbState)
    (h : isError (pragmaTableInfo db) = true ∨
         ((∃ cols, pragmaTableInfo db = .ok cols ∧ "context" ∉ cols) ∧
          isError (execAlterAddContext db) = true)) :
    isError (run_migrations db) = true := by
  rcases h with h | ⟨⟨cols, hok, hmem⟩, halt⟩
  · rw [run_migrations]
    cases hpt : pragmaTableInfo db with
    | error e => simp [isError]
    | ok cols => rw [hpt] at h; simp [isError] at h
  · rw [run_migrations, hok]
    simp only [hmem, if_false]
    cases hac : execAlterAddContext db with
    | error e => simp [isError]
    | ok db1 => rw [hac] at halt; simp [isError] at halt

/-- C6 witness: a store file whose `bookmarks` table is missing entirely —
introspection reports no columns and the ALTER TABLE statement fails. -/
theorem C6_witness :
    (isError (pragmaTableInfo ⟨true, false, none⟩) = true ∨
      ((∃ cols, pragmaTableInfo ⟨true, false, none⟩ = .ok cols ∧ "context" ∉ cols) ∧
       isError (execAlterAddContext ⟨true, false, none⟩) = true)) ∧
    isError (run_migrations ⟨true, false, none⟩) = true := by
  have h : isError (pragmaTableInfo (⟨true, false, none⟩ : DbState)) = true ∨
      ((∃ cols, pragmaTableInfo (⟨true, false, none⟩ : DbState) = .ok cols ∧
          "context" ∉ cols) ∧
       isError (execAlterAddContext ⟨true, false, none⟩) = true) :=
    Or.inr ⟨⟨[], rfl, by decide⟩, rfl⟩
  exact ⟨h, C6_run_migrations_propagates_failures ⟨true, false, none⟩ h⟩

/-- C3: `delete_bookmark` fails with "Database not found" exactly when the
store file does not exist; on a healthy store containing no row with the
given name it succeeds and leaves the store (all rows) unchanged. -/
theorem C3_delete_bookmark_spec (db : DbState) (name : String) :
    (delete_bookmark db name = .error "Database not found" ↔ db.fileExists = false) ∧
    (∀ t, db.fileExists = true → db.corrupted = false → db.table = some t →
      (∀ r ∈ t.rows, r.name ≠ name) → delete_bookmark db name = .ok db) := by
  obtain ⟨fe, co, tb⟩ := db
  constructor
  · constructor
    · intro h
      cases fe
      · rfl
      · exfalso
        cases co <;> rcases tb with _ | t <;>
          simp [delete_bookmark, execDelete] at h
    · intro h
      rw [show fe = false from h]
      rfl
  · intro t hf hc ht hall
    rw [show fe = true from hf, show co = false from hc, show tb = some t from ht]
    have hrows : t.rows.filter (fun r => r.name != name) = t.rows :=
      List.filter_eq_self.mpr fun r hr => by simpa [bne_iff_ne] using hall r hr
    simp [delete_bookmark, execDelete, hrows]

/-- C3 witness: deleting an unmatched name from a one-row store succeeds and
changes nothing; deleting from a missing store reports "Database not found". -/
theorem C3_witness :
    delete_bookmark ⟨true, false, some ⟨["name", "node_id"], [⟨"a", "1", none, none⟩]⟩⟩ "x" =
      .ok ⟨true, false, some ⟨["name", "node_id"], [⟨"a", "1", none, none⟩]⟩⟩ ∧
    delete_bookmark ⟨false, false, none⟩ "x" = .error "Database not found" :=
  ⟨(C3_delete_bookmark_spec ⟨true, false, some ⟨["name", "node_id"], [⟨"a", "1", none, none⟩]⟩⟩
      "x").2 ⟨["name", "node_id"], [⟨"a", "1", none, none⟩]⟩ rfl rfl rfl (by decide),
   (C3_delete_bookmark_spec ⟨false, false, none⟩ "x").1.mpr rfl⟩

/-- C4: on a healthy store containing a bookmark named `x` with a non-null
context, `update_bookmark_context x none` succeeds, and a subsequent
`get_bookmarks` lists a bookmark named `x`, every listed bookmark named `x`
now having `context = none`. -/
theorem C4_update_context_none_clears (db : DbState) (t : BookmarksTable)
    (x : String) (r0 : Bookmark)
    (hf : db.fileExists = true) (hc : db.corrupted = false) (ht : db.table = some t)
    (hcol : "context" ∈ t.columns) (hr0 : r0 ∈ t.rows) (hname : r0.name = x)
    (_hctx : r0.context.isSome = true) :
    ∃ db1, update_bookmark_context db x none = .ok db1 ∧
      ∃ bs, get_bookmarks db1 = .ok bs ∧ (∃ b ∈ bs, b.name = x) ∧
        ∀ b ∈ bs, b.name = x → b.context = none := by
  refine ⟨{ db with table := some ⟨t.columns,
              t.rows.map fun r => if r.name = x then { r with context := none } else r⟩ },
          ?_, ?_⟩
  · simp [update_bookmark_context, execUpdateContext, hf, hc, ht, hcol]
  · refine ⟨_, get_bookmarks_ok_present _
        ⟨t.columns, t.rows.map fun r => if r.name = x then { r with context := none } else r⟩
        (by simp [hf]) (by simp [hc]) rfl hcol, ?_, ?_⟩
    · refine ⟨{ r0 with context := none }, ?_, by simpa using hname⟩
      rw [mem_orderByName]
      have himg : (if r0.name = x then { r0 with context := none } else r0) =
          { r0 with context := none } := if_pos hname
      exact himg ▸ List.mem_map_of_mem _ hr0
    · intro b hb hbx
      rw [mem_orderByName] at hb
      rcases List.mem_map.mp hb with ⟨a, ha, rfl⟩
      by_cases hax : a.name = x
      · simp [hax]
      · rw [if_neg hax] at hbx ⊢
        exact absurd hbx hax

/-- C4 witness: a one-row store whose bookmark `a` carries a context; the
update clears it and the subsequent listing shows `none`. -/
theorem C4_witness :
    (⟨"a", "1", some "note", none⟩ : Bookmark).context.isSome = true ∧
    ∃ db1,
      update_bookmark_context
          ⟨true, false, some ⟨["name", "node_id", "context"], [⟨"a", "1", some "note", none⟩]⟩⟩
          "a" none = .ok db1 ∧
      ∃ bs, get_bookmarks db1 = .ok bs ∧ (∃ b ∈ bs, b.name = "a") ∧
        ∀ b ∈ bs, b.name = "a" → b.context = none :=
  ⟨rfl,
   C4_update_context_none_clears
     ⟨true, false, some ⟨["name", "node_id", "context"], [⟨"a", "1", some "note", none⟩]⟩⟩
     ⟨["name", "node_id", "context"], [⟨"a", "1", some "note", none⟩]⟩
     "a" ⟨"a", "1", some "note", none⟩
     rfl rfl rfl (by decide) (by decide) rfl rfl⟩

/-- C7: `update_bookmark_context` keeps every row's `name`, `node_id` and
`created_at`, changing only the `context` field of rows matching the given
name (and the column set stays put); `delete_bookmark` only removes rows,
every surviving row being one of the original rows unchanged. -/
theorem C7_write_ops_preserve_identity (db : DbState) (t : BookmarksTable)
    (x : String) (c : Option String) (db1 : DbState)
    (ht : db.table = some t)
    (hupd : update_bookmark_context db x c = .ok db1) :
    ∃ t1, db1.table = some t1 ∧ t1.columns = t.columns ∧
      t1.rows.length = t.rows.length ∧
      (∀ i (hi : i < t.rows.length) (hi1 : i < t1.rows.length),
        (t1.rows.get ⟨i, hi1⟩).name = (t.rows.get ⟨i, hi⟩).name ∧
        (t1.rows.get ⟨i, hi1⟩).node_id = (t.rows.get ⟨i, hi⟩).node_id ∧
        (t1.rows.get ⟨i, hi1⟩).created_at = (t.rows.get ⟨i, hi⟩).created_at ∧
        (t1.rows.get ⟨i, hi1⟩).context =
          (if (t.rows.get ⟨i, hi⟩).name = x then c else (t.rows.get ⟨i, hi⟩).context)) ∧
      ∀ y db2, delete_bookmark db y = .ok db2 →
        ∃ t2, db2.table = some t2 ∧ t2.columns = t.columns ∧
          ∀ r ∈ t2.rows, r ∈ t.rows := by
  rw [update_bookmark_context] at hupd
  by_cases hfe : db.fileExists = false
  · rw [if_pos hfe] at hupd
    exact absurd hupd (by simp)
  · rw [if_neg hfe] at hupd
    by_cases hcor : db.corrupted = true
    · simp [execUpdateContext, hcor] at hupd
    · by_cases hcol : "context" ∈ t.columns
      · simp only [execUpdateContext, hcor, ht, if_false, Bool.false_eq_true,
          ite_false, if_pos hcol, Except.ok.injEq] at hupd
        subst hupd
        refine ⟨⟨t.columns,
            t.rows.map fun r => if r.name = x then { r with context := c } else r⟩,
            rfl, rfl, by simp, ?_, ?_⟩
        · intro i hi hi1
          simp only [List.get_eq_getElem, List.getElem_map]
          by_cases hax : t.rows[i].name = x <;> simp [hax]
        · intro y db2 hdel
          rw [delete_bookmark, if_neg hfe] at hdel
          simp only [execDelete, hcor, ht, if_false, Bool.false_eq_true,
            ite_false, Except.ok.injEq] at hdel
          subst hdel
          exact ⟨⟨t.columns, t.rows.filter fun r => r.name != y⟩, rfl, rfl,
            fun r hr => List.mem_of_mem_filter hr⟩
      · simp [execUpdateContext, hcor, ht, hcol] at hupd

/-- C7 witness: updating `a`'s context on a two-row store rewrites only the
matching row's `context`; deleting keeps only original rows. -/
theorem C7_witness :
    update_bookmark_context
        ⟨true, false, some ⟨["name", "node_id", "context"],
          [⟨"a", "1", some "old", none⟩, ⟨"b", "2", none, some "t"⟩]⟩⟩
        "a" (some "new") =
      .ok ⟨true, false, some ⟨["name", "node_id", "context"],
          [⟨"a", "1", some "new", none⟩, ⟨"b", "2", none, some "t"⟩]⟩⟩ ∧
    ∃ t1,
      (⟨true, false, some ⟨["name", "node_id", "context"],
          [⟨"a", "1", some "new", none⟩, ⟨"b", "2", none, some "t"⟩]⟩⟩ : DbState).table =
        some t1 ∧
      t1.columns = ["name", "node_id", "context"] ∧
      t1.rows.length =
        ([⟨"a", "1", some "old", none⟩, ⟨"b", "2", none, some "t"⟩] : List Bookmark).length ∧
      (∀ i (hi : i < ([⟨"a", "1", some "old", none⟩, ⟨"b", "2", none, some "t"⟩] :
            List Bookmark).length) (hi1 : i < t1.rows.length),
        (t1.rows.get ⟨i, hi1⟩).name =
          (([⟨"a", "1", some "old", none⟩, ⟨"b", "2", none, some "t"⟩] :
            List Bookmark).get ⟨i, hi⟩).name ∧
        (t1.rows.get ⟨i, hi1⟩).node_id =
          (([⟨"a", "1", some "old", none⟩, ⟨"b", "2", none, some "t"⟩] :
            List Bookmark).get ⟨i, hi⟩).node_id ∧
        (t1.rows.get ⟨i, hi1⟩).created_at =
          (([⟨"a", "1", some "old", none⟩, ⟨"b", "2", none, some "t"⟩] :
            List Bookmark).get ⟨i, hi⟩).created_at ∧
        (t1.rows.get ⟨i, hi1⟩).context =
          (if (([⟨"a", "1", some "old", none⟩, ⟨"b", "2", none, some "t"⟩] :
              List Bookmark).get ⟨i, hi⟩).name = "a" then some "new"
           else (([⟨"a", "1", some "old", none⟩, ⟨"b", "2", none, some "t"⟩] :
              List Bookmark).get ⟨i, hi⟩).context)) ∧
      ∀ y db2,
        delete_bookmark
            ⟨true, false, some ⟨["name", "node_id", "context"],
              [⟨"a", "1", some "old", none⟩, ⟨"b", "2", none, some "t"⟩]⟩⟩ y = .ok db2 →
        ∃ t2, db2.table = some t2 ∧ t2.columns = ["name", "node_id", "context"] ∧
          ∀ r ∈ t2.rows,
            r ∈ ([⟨"a", "1", some "old", none⟩, ⟨"b", "2", none, some "t"⟩] : List Bookmark) :=
  ⟨by decide,
   C7_write_ops_preserve_identity
     ⟨true, false, some ⟨["name", "node_id", "context"],
       [⟨"a", "1", some "old", none⟩, ⟨"b", "2", none, some "t"⟩]⟩⟩
     ⟨["name", "node_id", "context"],
       [⟨"a", "1", some "old", none⟩, ⟨"b", "2", none, some "t"⟩]⟩
     "a" (some "new")
     ⟨true, false, some ⟨["name", "node_id", "context"],
       [⟨"a", "1", some "new", none⟩, ⟨"b", "2", none, some "t"⟩]⟩⟩
     rfl (by decide)⟩

/-- C8: `validate_api_key` sends the trimmed key as the bearer credential;
a 2xx status yields `true`, and any non-2xx status yields an error whose
message contains the numeric status code and the response body text (empty
when the body cannot be read). -/
theorem C8_validate_api_key_spec (k : String) (server : HttpRequest → HttpResponse) :
    (validate_request k).authorization = "Bearer " ++ rustTrim k ∧
    (statusIsSuccess (server (validate_request k)).status = true →
      validate_api_key k server = .ok true) ∧
    (statusIsSuccess (server (validate_request k)).status = false →
      ∃ msg, validate_api_key k server = .error msg ∧
        (∃ s1 s2, msg = s1 ++ toString (server (validate_request k)).status ++ s2) ∧
        (∃ s1 s2, msg = s1 ++ ((server (validate_request k)).body.getD "") ++ s2)) := by
  refine ⟨rfl, fun h => by simp [validate_api_key, h], fun h => ?_⟩
  refine ⟨"API error (" ++ toString (server (validate_request k)).status ++ "): " ++
      ((server (validate_request k)).body.getD ""), ?_, ?_, ?_⟩
  · simp [validate_api_key, h]
  · exact ⟨"API error (", "): " ++ ((server (validate_request k)).body.getD ""),
      by simp [String.append_assoc]⟩
  · exact ⟨"API error (" ++ toString (server (validate_request k)).status ++ "): ", "",
      by simp [String.append_assoc]⟩

/-- C8 witness: `" abc123 "` is sent as `Bearer abc123`; a 200 response
yields `true`; a 401 response with body `"invalid"` yields an error message
containing `401` and `invalid`. -/
theorem C8_witness :
    (validate_request " abc123 ").authorization = "Bearer abc123" ∧
    validate_api_key " abc123 " (fun _ => ⟨200, none⟩) = .ok true ∧
    ∃ msg, validate_api_key " abc123 " (fun _ => ⟨401, some "invalid"⟩) = .error msg ∧
      (∃ s1 s2, msg = s1 ++ toString (401 : Nat) ++ s2) ∧
      (∃ s1 s2, msg = s1 ++ "invalid" ++ s2) := by
  refine ⟨?_, ?_, ?_⟩
  · rw [(C8_validate_api_key_spec " abc123 " (fun _ => ⟨200, none⟩)).1]
    decide
  · exact (C8_validate_api_key_spec " abc123 " (fun _ => ⟨200, none⟩)).2.1 rfl
  · exact (C8_validate_api_key_spec " abc123 " (fun _ => ⟨401, some "invalid"⟩)).2.2 rfl

/-- C9: when the bundled helper script is absent, provisioning copies no
file, still returns the destination path `<app_data_dir>/server.cjs` (the
same path `get_server_path` derives), and the startup setup step still
succeeds. -/
theorem C9_copy_mcp_server_absent (env : AppEnv) (fs : FsState) (d r : String)
    (hd : env.app_data_dir = .ok d) (hr : env.resource_dir = .ok r)
    (habs : pathExists fs (serverSourcePath r) = false) :
    copy_mcp_server env fs = .ok (fs, joinPath d "server.cjs") ∧
    get_server_path env = .ok (joinPath d "server.cjs") ∧
    setup_step env fs = (fs, .ok ()) := by
  have h1 : copy_mcp_server env fs = .ok (fs, joinPath d "server.cjs") := by
    simp [copy_mcp_server, hd, hr, habs]
  exact ⟨h1, by simp [get_server_path, hd], by simp [setup_step, h1]⟩

/-- C9 witness: an empty filesystem (no bundled script anywhere). -/
theorem C9_witness :
    pathExists ⟨[]⟩ (serverSourcePath "/res") = false ∧
    copy_mcp_server ⟨.ok "/data", .ok "/res"⟩ ⟨[]⟩ =
      .ok (⟨[]⟩, joinPath "/data" "server.cjs") ∧
    get_server_path ⟨.ok "/data", .ok "/res"⟩ = .ok (joinPath "/data" "server.cjs") ∧
    setup_step ⟨.ok "/data", .ok "/res"⟩ ⟨[]⟩ = (⟨[]⟩, .ok ()) :=
  ⟨rfl, C9_copy_mcp_server_absent ⟨.ok "/data", .ok "/res"⟩ ⟨[]⟩ "/data" "/res" rfl rfl rfl⟩

/-- C10: the write operations never migrate: on a healthy store whose table
lacks the `context` column, `update_bookmark_context` returns an error (the
UPDATE references a missing column, as the bare select also would), while
`delete_bookmark` succeeds leaving the column set unchanged, and
`get_bookmarks` — the only path that migrates — succeeds. -/
theorem C10_write_ops_do_not_migrate (db : DbState) (t : BookmarksTable)
    (x y : String) (c : Option String)
    (hf : db.fileExists = true) (hc : db.corrupted = false) (ht : db.table = some t)
    (hcol : "context" ∉ t.columns) :
    (∃ e, update_bookmark_context db x c = .error e) ∧
    (∃ db2 t2, delete_bookmark db y = .ok db2 ∧ db2.table = some t2 ∧
      t2.columns = t.columns) ∧
    (∃ e, selectBookmarks db = .error e) ∧
    (∃ bs, get_bookmarks db = .ok bs) := by
  refine ⟨⟨"Failed to update bookmark: no such column: context", ?_⟩, ?_, ?_, ?_⟩
  · simp [update_bookmark_context, execUpdateContext, hf, hc, ht, hcol]
  · exact ⟨{ db with table := some ⟨t.columns, t.rows.filter fun r => r.name != y⟩ },
      ⟨t.columns, t.rows.filter fun r => r.name != y⟩,
      by simp [delete_bookmark, execDelete, hf, hc, ht], rfl, rfl⟩
  · exact ⟨"no such column: context", by simp [selectBookmarks, hc, ht, hcol]⟩
  · exact ⟨_, get_bookmarks_ok db t hf hc ht⟩

/-- C10 witness: a pre-migration store (no `context` column): the update
errors, the delete succeeds without touching the columns, the bare select
errors, and the listing succeeds. -/
theorem C10_witness :
    ("context" ∉ (["name", "node_id"] : List String)) ∧
    ((∃ e, update_bookmark_context
        ⟨true, false, some ⟨["name", "node_id"], [⟨"a", "1", none, none⟩]⟩⟩ "a"
        (some "c") = .error e) ∧
     (∃ db2 t2, delete_bookmark
        ⟨true, false, some ⟨["name", "node_id"], [⟨"a", "1", none, none⟩]⟩⟩ "b" =
          .ok db2 ∧ db2.table = some t2 ∧ t2.columns = ["name", "node_id"]) ∧
     (∃ e, selectBookmarks
        ⟨true, false, some ⟨["name", "node_id"], [⟨"a", "1", none, none⟩]⟩⟩ = .error e) ∧
     (∃ bs, get_bookmarks
        ⟨true, false, some ⟨["name", "node_id"], [⟨"a", "1", none, none⟩]⟩⟩ = .ok bs)) :=
  ⟨by decide,
   C10_write_ops_do_not_migrate
     ⟨true, false, some ⟨["name", "node_id"], [⟨"a", "1", none, none⟩]⟩⟩
     ⟨["name", "node_id"], [⟨"a", "1", none, none⟩]⟩
     "a" "b" (some "c") rfl rfl rfl (by decide)⟩

end WorkflowyLocal
